import Mathlib

/-!
Shallow embedding of the GPU task coordination core of the repository:
`src/synde_gpu/manager.py` (`GpuTaskManager.execute_async`, `execute_sync`,
`_cancel_task`, `_cancel_task_sync`) and `src/synde_gpu/locking.py`
(`DistributedLock.acquire`, `release`, `locked`).

Modelling conventions:
* Python values are modelled by `PyVal`, with Python truthiness and `str`.
* Each call to `time.time()` reads the next entry of a rational-valued
  clock stream `clock : Nat -> Rat`; the cursor (index of the next unread
  entry) is threaded explicitly.  `start_time` is `clock 0`.
* Exceptions are modelled by `Except String`, the `String` being the
  exception's message (`str(e)`).
* The observable side effects of one invocation (checkpoint `put`,
  task-function call, sleeps, progress callbacks, `revoke` requests) are
  collected in order in an event list.
* The polling loops take a fuel bound; `none` means the bound was hit
  (the real loop would still be running at that point).
-/

namespace SyndeGpu

/-- A fragment of Python values sufficient for the coordinator's data flow:
`None`, strings, integers, booleans and (string-valued) dicts. -/
inductive PyVal where
  | vNone
  | vStr (s : String)
  | vInt (n : Int)
  | vBool (b : Bool)
  | vDict (entries : List (String × String))
deriving Repr, DecidableEq

/-- Python truthiness, `bool(x)`, for the modelled value fragment
(`None`, the empty string, `0`, `False` and the empty dict are falsy). -/
def PyVal.truthy : PyVal → Bool
  | .vNone => false
  | .vStr s => !s.isEmpty
  | .vInt n => n != 0
  | .vBool b => b
  | .vDict es => !es.isEmpty

/-- Python `str(x)` for the modelled value fragment (the rendering of dicts
is abbreviated; no claim depends on the exact dict rendering). -/
def PyVal.pyStr : PyVal → String
  | .vNone => "None"
  | .vStr s => s
  | .vInt n => toString n
  | .vBool b => if b then "True" else "False"
  | .vDict _ => "dict"

/-- The `TaskStatus` enum of manager.py (lines 24-31). -/
inductive TaskStatus where
  | PENDING
  | STARTED
  | SUCCESS
  | FAILURE
  | TIMEOUT
  | REVOKED
deriving Repr, DecidableEq

/-- The `GpuTaskResult` dataclass of manager.py (lines 34-41).
`result := .vNone` models the Python default `result=None` (Python does not
distinguish an absent payload from an explicit `None`); `error := none`
models `error=None`. -/
structure GpuTaskResult where
  status : TaskStatus
  result : PyVal := .vNone
  error : Option String := none
  task_id : Option String := none
  elapsed_seconds : ℚ := 0
deriving Repr, DecidableEq

/-- Observable side effects of one coordinator invocation, in program order. -/
inductive Ev where
  | put (stage task : String)
  | submitCall
  | sleep (seconds : ℚ)
  | progress (taskId phase : String) (elapsed : ℚ)
  | cancel (terminate : Bool) (signal : String)
deriving Repr, DecidableEq

/-- Events that are `revoke` (cancellation) requests. -/
def isCancelEv : Ev → Bool
  | .cancel _ _ => true
  | _ => false

/-- Events that are suspensions (`asyncio.sleep` / `time.sleep`). -/
def isSleepEv : Ev → Bool
  | .sleep _ => true
  | _ => false

/-- Events that are checkpoint-sink `put` calls. -/
def isPutEv : Ev → Bool
  | .put _ _ => true
  | _ => false

/-- Behaviour of one Celery `AsyncResult` handle, as the coordinator
observes it: the result of the n-th `ready()` call, of the `successful()`
call, of the `.result` access, and of the `revoke` call.  Each may return
normally or raise. -/
structure HandleB where
  id : String
  ready : Nat → Except String Bool
  successful : Except String Bool
  getResult : Except String PyVal
  revoke : Except String Unit

/-- What `task_func(*args, **kwargs)` returns outside mock mode: either a
real `AsyncResult` handle, or any other value (manager.py line 127: the
"direct result" path taken when the returned object is not an
`AsyncResult`). -/
inductive Submission where
  | direct (v : PyVal)
  | handle (h : HandleB)

/-- Environment of one coordinator invocation: the clock stream (the n-th
`time.time()` reading), the mock-mode flag, what the task function returns
(in and outside mock mode), the optional progress callback (`on_checkpoint`,
indexed by loop iteration, possibly raising), the optional checkpointer
(whose `put` outcome is swallowed by the coordinator), and the `state`
argument (`.vNone` models the default `state=None`). -/
structure Env where
  clock : Nat → ℚ
  mockMode : Bool
  mockResult : PyVal
  submission : Submission
  onCheckpoint : Option (Nat → Except String Unit)
  checkpointer : Option (Except String Unit)
  state : PyVal

/-- The timeout error message of manager.py lines 148 and 249. -/
def timeoutMsg (timeout : Int) : String :=
  "Task timed out after " ++ toString timeout ++ "s"

/-- The pre-submission checkpoint events (manager.py lines 106-110): `put`
is called iff a checkpointer is supplied and `state` is truthy; its outcome
is swallowed (`except Exception: pass`). -/
def preLog (env : Env) (taskName : String) : List Ev :=
  match env.checkpointer with
  | some _ => if env.state.truthy then [.put "pre_gpu" taskName] else []
  | none => []

/-- The body of the `try` block of `execute_async` (manager.py lines
137-182): the polling loop plus result retrieval.  Arguments after the
fixed ones: fuel, iteration counter, `last_checkpoint_time`, clock cursor,
event log so far.  Returns the normal result or the raised exception,
together with the clock cursor and the log at that point. -/
def tryBody (env : Env) (h : HandleB) (timeout : Int) (pollI ckI : ℚ) :
    Nat → Nat → ℚ → Nat → List Ev →
    Option (Except String GpuTaskResult × Nat × List Ev)
  | 0, _, _, _, _ => none
  | fuel + 1, iter, lastCk, ci, log =>
    if (timeout : ℚ) < env.clock ci - env.clock 0 then
      -- `_cancel_task` (lines 286-296): one `revoke(terminate=True,
      -- signal="SIGKILL")` request; `h.revoke`'s outcome is swallowed.
      some (.ok { status := .TIMEOUT, error := some (timeoutMsg timeout),
                  task_id := some h.id,
                  elapsed_seconds := env.clock ci - env.clock 0 },
            ci + 1, log ++ [.cancel true "SIGKILL"])
    else
      match h.ready iter with
      | .error e => some (.error e, ci + 1, log)
      | .ok true =>
        -- loop exit (line 155); `elapsed` recomputed at line 166
        match h.successful with
        | .error e => some (.error e, ci + 2, log)
        | .ok true =>
          match h.getResult with
          | .error e => some (.error e, ci + 2, log)
          | .ok v =>
            some (.ok { status := .SUCCESS, result := v,
                        task_id := some h.id,
                        elapsed_seconds := env.clock (ci + 1) - env.clock 0 },
                  ci + 2, log)
        | .ok false =>
          match h.getResult with
          | .error e => some (.error e, ci + 2, log)
          | .ok v =>
            some (.ok { status := .FAILURE,
                        error := some (if v.truthy then v.pyStr
                                       else "Unknown error"),
                        task_id := some h.id,
                        elapsed_seconds := env.clock (ci + 1) - env.clock 0 },
                  ci + 2, log)
      | .ok false =>
        match env.onCheckpoint with
        | none =>
          tryBody env h timeout pollI ckI fuel (iter + 1) lastCk (ci + 1)
            (log ++ [.sleep pollI])
        | some cb =>
          if ckI ≤ env.clock (ci + 1) - lastCk then
            match cb iter with
            | .error e =>
              some (.error e, ci + 2,
                    log ++ [.progress h.id "started"
                              (env.clock ci - env.clock 0)])
            | .ok _ =>
              tryBody env h timeout pollI ckI fuel (iter + 1)
                (env.clock (ci + 2)) (ci + 3)
                (log ++ [.progress h.id "started"
                           (env.clock ci - env.clock 0), .sleep pollI])
          else
            tryBody env h timeout pollI ckI fuel (iter + 1) lastCk (ci + 2)
              (log ++ [.sleep pollI])

/-- `GpuTaskManager.execute_async` (manager.py lines 76-191), as a function
of the invocation environment.  The `except Exception` handler of lines
184-191 converts a raised exception into a `FAILURE` result, reading the
clock once more for `elapsed`. -/
def executeAsync (env : Env) (taskName : String) (timeout : Int)
    (pollI ckI : ℚ) (fuel : Nat) : Option (GpuTaskResult × List Ev) :=
  if env.mockMode then
    some ({ status := .SUCCESS, result := env.mockResult,
            task_id := some "mock-task",
            elapsed_seconds := env.clock 1 - env.clock 0 },
          preLog env taskName ++ [.submitCall])
  else
    match env.submission with
    | .direct v =>
      some ({ status := .SUCCESS, result := v,
              task_id := some "direct-result",
              elapsed_seconds := env.clock 1 - env.clock 0 },
            preLog env taskName ++ [.submitCall])
    | .handle h =>
      match tryBody env h timeout pollI ckI fuel 0 (env.clock 0) 1
          (preLog env taskName ++ [.submitCall]) with
      | none => none
      | some (.ok r, _, log) => some (r, log)
      | some (.error e, ci, log) =>
        some ({ status := .FAILURE, error := some e, task_id := some h.id,
                elapsed_seconds := env.clock ci - env.clock 0 }, log)

/-- The polling loop plus result retrieval of `execute_sync` (manager.py
lines 240-275): like `tryBody`, but with no progress-callback step. -/
def syncBody (env : Env) (h : HandleB) (timeout : Int) (pollI : ℚ) :
    Nat → Nat → Nat → List Ev →
    Option (Except String GpuTaskResult × Nat × List Ev)
  | 0, _, _, _ => none
  | fuel + 1, iter, ci, log =>
    if (timeout : ℚ) < env.clock ci - env.clock 0 then
      some (.ok { status := .TIMEOUT, error := some (timeoutMsg timeout),
                  task_id := some h.id,
                  elapsed_seconds := env.clock ci - env.clock 0 },
            ci + 1, log ++ [.cancel true "SIGKILL"])
    else
      match h.ready iter with
      | .error e => some (.error e, ci + 1, log)
      | .ok true =>
        match h.successful with
        | .error e => some (.error e, ci + 2, log)
        | .ok true =>
          match h.getResult with
          | .error e => some (.error e, ci + 2, log)
          | .ok v =>
            some (.ok { status := .SUCCESS, result := v,
                        task_id := some h.id,
                        elapsed_seconds := env.clock (ci + 1) - env.clock 0 },
                  ci + 2, log)
        | .ok false =>
          match h.getResult with
          | .error e => some (.error e, ci + 2, log)
          | .ok v =>
            some (.ok { status := .FAILURE,
                        error := some (if v.truthy then v.pyStr
                                       else "Unknown error"),
                        task_id := some h.id,
                        elapsed_seconds := env.clock (ci + 1) - env.clock 0 },
                  ci + 2, log)
      | .ok false =>
        syncBody env h timeout pollI fuel (iter + 1) (ci + 1)
          (log ++ [.sleep pollI])

/-- `GpuTaskManager.execute_sync` (manager.py lines 193-284).  It accepts no
checkpointer, no state snapshot and no progress callback, so it consults
none of those environment fields. -/
def executeSync (env : Env) (timeout : Int) (pollI : ℚ) (fuel : Nat) :
    Option (GpuTaskResult × List Ev) :=
  if env.mockMode then
    some ({ status := .SUCCESS, result := env.mockResult,
            task_id := some "mock-task",
            elapsed_seconds := env.clock 1 - env.clock 0 },
          [.submitCall])
  else
    match env.submission with
    | .direct v =>
      some ({ status := .SUCCESS, result := v,
              task_id := some "direct-result",
              elapsed_seconds := env.clock 1 - env.clock 0 },
            [.submitCall])
    | .handle h =>
      match syncBody env h timeout pollI fuel 0 1 [.submitCall] with
      | none => none
      | some (.ok r, _, log) => some (r, log)
      | some (.error e, ci, log) =>
        some ({ status := .FAILURE, error := some e, task_id := some h.id,
                elapsed_seconds := env.clock ci - env.clock 0 }, log)

/-- Behaviour of the lock's backing store, as `DistributedLock.acquire`
observes it: whether the n-th single-shot `lock.acquire(blocking=False)`
attempt (locking.py lines 71 and 77) succeeds. -/
structure LockEnv where
  tryAcquire : Nat → Bool

/-- Observable side effects of the lock operations, in program order. -/
inductive LockEv where
  | attempt (n : Nat)
  | sleep (seconds : ℚ)
  | enter
  | release
deriving Repr, DecidableEq

/-- The blocking retry loop of `DistributedLock.acquire` (locking.py lines
68-75).  The first argument counts the remaining iterations
(`max_retries - retries`), the second is the index of the next attempt.
The returned token is the index of the successful attempt. -/
def acquireGo (env : LockEnv) (retryInterval : ℚ) :
    Nat → Nat → List LockEv → Option Nat × List LockEv
  | 0, _, log => (none, log)
  | remaining + 1, n, log =>
    if env.tryAcquire n then (some n, log ++ [.attempt n])
    else acquireGo env retryInterval remaining (n + 1)
      (log ++ [.attempt n, .sleep retryInterval])

/-- `DistributedLock.acquire` (locking.py lines 44-79). -/
def acquire (env : LockEnv) (blocking : Bool) (retryInterval : ℚ)
    (maxRetries : Nat) : Option Nat × List LockEv :=
  if blocking then acquireGo env retryInterval maxRetries 0 []
  else if env.tryAcquire 0 then (some 0, [.attempt 0])
  else (none, [.attempt 0])

/-- Outcome of the `locked` context manager: the critical section's value,
the critical section's raised exception (re-raised after the `finally`
release), or a raised `LockAcquisitionError`. -/
inductive LockedOutcome (α : Type) where
  | ok (a : α)
  | bodyError (msg : String)
  | acqError (msg : String)
deriving Repr, DecidableEq

/-- `DistributedLock.locked` (locking.py lines 97-122): acquire with
`blocking=True`; raise `LockAcquisitionError` when `acquire` returns
`None`; otherwise yield to the critical section (`.enter`) and release in a
`finally` block (`.release`; `release` itself swallows exceptions,
locking.py lines 91-95, so it happens on both exit paths and never
raises). -/
def lockedCM {α : Type} (env : LockEnv) (retryInterval : ℚ)
    (maxRetries : Nat) (lockName : String) (body : Except String α) :
    LockedOutcome α × List LockEv :=
  match acquire env true retryInterval maxRetries with
  | (none, log) => (.acqError ("Failed to acquire lock: " ++ lockName), log)
  | (some _, log) =>
    match body with
    | .ok a => (.ok a, log ++ [.enter, .release])
    | .error e => (.bodyError e, log ++ [.enter, .release])

/-- `Reaches env h timeout pollI ckI k ci lastCk dlog` says that the
polling loop of `execute_async`, started on handle `h`, completes its first
`k` iterations without exiting: each of them observes `elapsed ≤ timeout`,
a `ready()` call returning `False`, and a progress callback that returns
normally when invoked.  It arrives at iteration `k` with clock cursor `ci`,
with `last_checkpoint_time = lastCk`, and with `dlog` the events those
iterations appended. -/
inductive Reaches (env : Env) (h : HandleB) (timeout : Int) (pollI ckI : ℚ) :
    Nat → Nat → ℚ → List Ev → Prop where
  | zero : Reaches env h timeout pollI ckI 0 1 (env.clock 0) []
  | stepNoCb (k ci : Nat) (lastCk : ℚ) (dlog : List Ev)
      (prev : Reaches env h timeout pollI ckI k ci lastCk dlog)
      (hcb : env.onCheckpoint = none)
      (ht : env.clock ci - env.clock 0 ≤ (timeout : ℚ))
      (hrdy : h.ready k = .ok false) :
      Reaches env h timeout pollI ckI (k + 1) (ci + 1) lastCk
        (dlog ++ [.sleep pollI])
  | stepCbSkip (k ci : Nat) (lastCk : ℚ) (dlog : List Ev)
      (cb : Nat → Except String Unit)
      (prev : Reaches env h timeout pollI ckI k ci lastCk dlog)
      (hcb : env.onCheckpoint = some cb)
      (ht : env.clock ci - env.clock 0 ≤ (timeout : ℚ))
      (hrdy : h.ready k = .ok false)
      (hskip : env.clock (ci + 1) - lastCk < ckI) :
      Reaches env h timeout pollI ckI (k + 1) (ci + 2) lastCk
        (dlog ++ [.sleep pollI])
  | stepCbFire (k ci : Nat) (lastCk : ℚ) (dlog : List Ev)
      (cb : Nat → Except String Unit)
      (prev : Reaches env h timeout pollI ckI k ci lastCk dlog)
      (hcb : env.onCheckpoint = some cb)
      (ht : env.clock ci - env.clock 0 ≤ (timeout : ℚ))
      (hrdy : h.ready k = .ok false)
      (hfire : ckI ≤ env.clock (ci + 1) - lastCk)
      (hok : cb k = .ok ()) :
      Reaches env h timeout pollI ckI (k + 1) (ci + 3) (env.clock (ci + 2))
        (dlog ++ [.progress h.id "started" (env.clock ci - env.clock 0),
                  .sleep pollI])

/-- The events of `i` failed acquisition attempts starting at attempt
index `start`: each failed attempt is followed by a retry sleep. -/
def retryLog (ri : ℚ) : Nat → Nat → List LockEv
  | _, 0 => []
  | start, c + 1 => .attempt start :: .sleep ri :: retryLog ri (start + 1) c

/-- Lock events that are acquisition attempts. -/
def isAttemptEv : LockEv → Bool
  | .attempt _ => true
  | _ => false

/-- The result-envelope invariant that both modes actually maintain:
`status ∈ {FAILURE, TIMEOUT}` iff an error message is present,
`status = SUCCESS` iff no error message is present, and a non-`None`
payload only ever accompanies `SUCCESS` (on `SUCCESS` the payload may still
be `None`, when the task's value was `None`). -/
def resultEnvInvariant (r : GpuTaskResult) : Prop :=
  ((r.status = .FAILURE ∨ r.status = .TIMEOUT) ↔ r.error ≠ none)
  ∧ (r.status = .SUCCESS ↔ r.error = none)
  ∧ (r.result ≠ .vNone → r.status = .SUCCESS)

instance (r : GpuTaskResult) : Decidable (resultEnvInvariant r) := by
  unfold resultEnvInvariant
  infer_instance

/-- The result-envelope invariant exactly as the spec's words state it:
`status == Success` iff `payload` is present and `error` is absent;
`status ∈ {Failure, Timeout}` iff `error` is present.  (Payload "present"
means not the Python `None`.) -/
def specResultInvariant (r : GpuTaskResult) : Prop :=
  (r.status = .SUCCESS ↔ (r.result ≠ .vNone ∧ r.error = none))
  ∧ ((r.status = .FAILURE ∨ r.status = .TIMEOUT) ↔ r.error ≠ none)

instance (r : GpuTaskResult) : Decidable (specResultInvariant r) := by
  unfold specResultInvariant
  infer_instance

/-!  Concrete environments used by the witnesses and counterexamples. -/

/-- A handle that never becomes ready (used to exercise the timeout path). -/
def hW1 : HandleB :=
  { id := "tid", ready := fun _ => .ok false, successful := .ok true,
    getResult := .ok .vNone, revoke := .ok () }

/-- Clock jumping 100 seconds per reading; no callbacks. -/
def envW1 : Env :=
  { clock := fun n => (100 : ℚ) * n, mockMode := false,
    mockResult := .vNone, submission := .handle hW1,
    onCheckpoint := none, checkpointer := none, state := .vNone }

/-- A handle whose `ready()` raises. -/
def hW2 : HandleB :=
  { id := "tid", ready := fun _ => .error "boom", successful := .ok true,
    getResult := .ok .vNone, revoke := .ok () }

/-- Slow clock; first `ready()` call raises. -/
def envW2 : Env :=
  { clock := fun n => (n : ℚ), mockMode := false, mockResult := .vNone,
    submission := .handle hW2, onCheckpoint := none, checkpointer := none,
    state := .vNone }

/-- Mock mode with a task that returns Python `None`. -/
def envX3 : Env :=
  { clock := fun _ => 0, mockMode := true, mockResult := .vNone,
    submission := .direct .vNone, onCheckpoint := none,
    checkpointer := none, state := .vNone }

/-- Mock mode with a task returning a truthy value. -/
def envW3 : Env :=
  { clock := fun _ => 0, mockMode := true, mockResult := .vStr "ok",
    submission := .direct .vNone, onCheckpoint := none,
    checkpointer := none, state := .vNone }

/-- A handle ready at once with a succeeding outcome. -/
def hW4s : HandleB :=
  { id := "tid", ready := fun _ => .ok true, successful := .ok true,
    getResult := .ok (.vStr "val"), revoke := .ok () }

def envW4s : Env :=
  { clock := fun n => (n : ℚ), mockMode := false, mockResult := .vNone,
    submission := .handle hW4s, onCheckpoint := none, checkpointer := none,
    state := .vNone }

/-- A handle ready at once with a failing outcome carrying "bad input". -/
def hW4f : HandleB :=
  { id := "tid", ready := fun _ => .ok true, successful := .ok false,
    getResult := .ok (.vStr "bad input"), revoke := .ok () }

def envW4f : Env :=
  { clock := fun n => (n : ℚ), mockMode := false, mockResult := .vNone,
    submission := .handle hW4f, onCheckpoint := none, checkpointer := none,
    state := .vNone }

/-- A checkpoint sink is supplied together with a supplied—but empty,
hence falsy—state snapshot (the Python dict `{}`). -/
def envX5 : Env :=
  { clock := fun _ => 0, mockMode := true, mockResult := .vInt 1,
    submission := .direct .vNone, onCheckpoint := none,
    checkpointer := some (.ok ()), state := .vDict [] }

/-- A checkpoint sink together with a truthy state snapshot. -/
def envW5 : Env :=
  { clock := fun _ => 0, mockMode := true, mockResult := .vInt 1,
    submission := .direct .vNone, onCheckpoint := none,
    checkpointer := some (.ok ()), state := .vDict [("k", "v")] }

/-- Sink and truthy snapshot supplied, mock mode (used to exhibit the
difference between the two execution modes). -/
def envX6 : Env :=
  { clock := fun _ => 0, mockMode := true, mockResult := .vInt 7,
    submission := .direct .vNone, onCheckpoint := none,
    checkpointer := some (.ok ()), state := .vDict [("k", "v")] }

/-- No callback, no checkpointer: the modes should coincide. -/
def envW6 : Env :=
  { clock := fun n => (n : ℚ), mockMode := false, mockResult := .vNone,
    submission := .handle hW1, onCheckpoint := none, checkpointer := none,
    state := .vNone }

/-- Mock mode under a test clock (all readings equal). -/
def envW7m : Env :=
  { clock := fun _ => 5, mockMode := true, mockResult := .vInt 42,
    submission := .direct .vNone, onCheckpoint := none,
    checkpointer := none, state := .vNone }

/-- Submission returns a non-handle value, under a test clock. -/
def envW7d : Env :=
  { clock := fun _ => 5, mockMode := false, mockResult := .vNone,
    submission := .direct (.vInt 7), onCheckpoint := none,
    checkpointer := none, state := .vNone }

/-- A lock store on which the second acquisition attempt succeeds. -/
def lenvW8 : LockEnv := { tryAcquire := fun n => n == 1 }

/-- A lock store on which every acquisition attempt fails. -/
def lenvW9 : LockEnv := { tryAcquire := fun _ => false }

/-- A handle that is ready from the first poll on. -/
def hW10 : HandleB :=
  { id := "tid", ready := fun _ => .ok true, successful := .ok true,
    getResult := .ok (.vStr "val"), revoke := .ok () }

/-- Clock jumping past the deadline before the first poll, with readiness
already available at that poll. -/
def envW10 : Env :=
  { clock := fun n => (100 : ℚ) * n, mockMode := false,
    mockResult := .vNone, submission := .handle hW10,
    onCheckpoint := none, checkpointer := none, state := .vNone }

/-!  Helper lemmas about the polling loops. -/

/-- Unfolding the polling loop along a `Reaches` derivation: after `k`
non-exiting iterations the loop continues from the reached state, with the
iteration events appended to the log. -/
lemma tryBody_reaches {env : Env} {h : HandleB} {timeout : Int}
    {pollI ckI : ℚ} {k ci : Nat} {lastCk : ℚ} {dlog : List Ev}
    (hr : Reaches env h timeout pollI ckI k ci lastCk dlog) :
    ∀ fuel log0,
      tryBody env h timeout pollI ckI (k + fuel) 0 (env.clock 0) 1 log0
        = tryBody env h timeout pollI ckI fuel k lastCk ci (log0 ++ dlog) := by
  induction hr with
  | zero => intro fuel log0; simp
  | stepNoCb k ci lastCk dlog prev hcb ht hrdy ih =>
    intro fuel log0
    rw [show k + 1 + fuel = k + (fuel + 1) by omega, ih (fuel + 1) log0]
    simp only [tryBody, hrdy, hcb, if_neg (not_lt.mpr ht), List.append_assoc]
  | stepCbSkip k ci lastCk dlog cb prev hcb ht hrdy hskip ih =>
    intro fuel log0
    rw [show k + 1 + fuel = k + (fuel + 1) by omega, ih (fuel + 1) log0]
    simp only [tryBody, hrdy, hcb, if_neg (not_lt.mpr ht),
      if_neg (not_le.mpr hskip), List.append_assoc]
  | stepCbFire k ci lastCk dlog cb prev hcb ht hrdy hfire hok ih =>
    intro fuel log0
    rw [show k + 1 + fuel = k + (fuel + 1) by omega, ih (fuel + 1) log0]
    simp only [tryBody, hrdy, hcb, hok, if_neg (not_lt.mpr ht),
      if_pos hfire, List.append_assoc]

/-- The events appended by non-exiting loop iterations are only sleeps and
progress callbacks: no cancellation request, no checkpoint `put`, no
task-function call. -/
lemma reaches_dlog_events {env : Env} {h : HandleB} {timeout : Int}
    {pollI ckI : ℚ} {k ci : Nat} {lastCk : ℚ} {dlog : List Ev}
    (hr : Reaches env h timeout pollI ckI k ci lastCk dlog) :
    ∀ e ∈ dlog, isCancelEv e = false ∧ isPutEv e = false := by
  induction hr with
  | zero => simp
  | stepNoCb k ci lastCk dlog prev hcb ht hrdy ih =>
    intro e he
    rcases List.mem_append.mp he with h' | h'
    · exact ih e h'
    · rcases List.mem_singleton.mp h' with rfl
      exact ⟨rfl, rfl⟩
  | stepCbSkip k ci lastCk dlog cb prev hcb ht hrdy hskip ih =>
    intro e he
    rcases List.mem_append.mp he with h' | h'
    · exact ih e h'
    · rcases List.mem_singleton.mp h' with rfl
      exact ⟨rfl, rfl⟩
  | stepCbFire k ci lastCk dlog cb prev hcb ht hrdy hfire hok ih =>
    intro e he
    rcases List.mem_append.mp he with h' | h'
    · exact ih e h'
    · rcases List.mem_cons.mp h' with rfl | h''
      · exact ⟨rfl, rfl⟩
      · rcases List.mem_singleton.mp h'' with rfl
        exact ⟨rfl, rfl⟩

/-- The pre-submission checkpoint events contain no cancellation request. -/
lemma preLog_no_cancel (env : Env) (tn : String) :
    ∀ e ∈ preLog env tn, isCancelEv e = false := by
  unfold preLog
  cases env.checkpointer with
  | none => simp
  | some p =>
    cases htr : env.state.truthy <;> simp [htr, isCancelEv]

/-- If the loop reaches iteration `k` with `elapsed > timeout` there, it
returns the `TIMEOUT` result after exactly one forceful cancellation
request. -/
lemma tryBody_timeout {env : Env} {h : HandleB} {timeout : Int}
    {pollI ckI : ℚ} {k ci : Nat} {lastCk : ℚ} {dlog : List Ev}
    (hr : Reaches env h timeout pollI ckI k ci lastCk dlog)
    (hlate : (timeout : ℚ) < env.clock ci - env.clock 0) :
    ∀ fuel log0, k < fuel →
      tryBody env h timeout pollI ckI fuel 0 (env.clock 0) 1 log0
        = some (.ok { status := .TIMEOUT, error := some (timeoutMsg timeout),
                      task_id := some h.id,
                      elapsed_seconds := env.clock ci - env.clock 0 },
                ci + 1, (log0 ++ dlog) ++ [.cancel true "SIGKILL"]) := by
  intro fuel log0 hf
  obtain ⟨m, rfl⟩ : ∃ m, fuel = k + (m + 1) := ⟨fuel - k - 1, by omega⟩
  rw [tryBody_reaches hr (m + 1) log0]
  simp only [tryBody, if_pos hlate]

/-- If the loop reaches iteration `k` within the timeout and the `ready()`
call there raises, the raised exception is the loop's outcome. -/
lemma tryBody_ready_error {env : Env} {h : HandleB} {timeout : Int}
    {pollI ckI : ℚ} {k ci : Nat} {lastCk : ℚ} {dlog : List Ev}
    (hr : Reaches env h timeout pollI ckI k ci lastCk dlog)
    (hnl : env.clock ci - env.clock 0 ≤ (timeout : ℚ))
    {e : String} (hrdy : h.ready k = .error e) :
    ∀ fuel log0, k < fuel →
      tryBody env h timeout pollI ckI fuel 0 (env.clock 0) 1 log0
        = some (.error e, ci + 1, log0 ++ dlog) := by
  intro fuel log0 hf
  obtain ⟨m, rfl⟩ : ∃ m, fuel = k + (m + 1) := ⟨fuel - k - 1, by omega⟩
  rw [tryBody_reaches hr (m + 1) log0]
  simp only [tryBody, hrdy, if_neg (not_lt.mpr hnl)]

/-- Loop exit on readiness with a succeeding handle: the `SUCCESS` result
carries the handle's value. -/
lemma tryBody_exit_success {env : Env} {h : HandleB} {timeout : Int}
    {pollI ckI : ℚ} {k ci : Nat} {lastCk : ℚ} {dlog : List Ev}
    (hr : Reaches env h timeout pollI ckI k ci lastCk dlog)
    (hnl : env.clock ci - env.clock 0 ≤ (timeout : ℚ))
    (hrdy : h.ready k = .ok true)
    (hsucc : h.successful = .ok true)
    {v : PyVal} (hres : h.getResult = .ok v) :
    ∀ fuel log0, k < fuel →
      tryBody env h timeout pollI ckI fuel 0 (env.clock 0) 1 log0
        = some (.ok { status := .SUCCESS, result := v, task_id := some h.id,
                      elapsed_seconds := env.clock (ci + 1) - env.clock 0 },
                ci + 2, log0 ++ dlog) := by
  intro fuel log0 hf
  obtain ⟨m, rfl⟩ : ∃ m, fuel = k + (m + 1) := ⟨fuel - k - 1, by omega⟩
  rw [tryBody_reaches hr (m + 1) log0]
  simp only [tryBody, hrdy, hsucc, hres, if_neg (not_lt.mpr hnl)]

/-- Loop exit on readiness with a failing handle: the `FAILURE` result
carries the handle's error information when truthy, else "Unknown error". -/
lemma tryBody_exit_failure {env : Env} {h : HandleB} {timeout : Int}
    {pollI ckI : ℚ} {k ci : Nat} {lastCk : ℚ} {dlog : List Ev}
    (hr : Reaches env h timeout pollI ckI k ci lastCk dlog)
    (hnl : env.clock ci - env.clock 0 ≤ (timeout : ℚ))
    (hrdy : h.ready k = .ok true)
    (hsucc : h.successful = .ok false)
    {v : PyVal} (hres : h.getResult = .ok v) :
    ∀ fuel log0, k < fuel →
      tryBody env h timeout pollI ckI fuel 0 (env.clock 0) 1 log0
        = some (.ok { status := .FAILURE,
                      error := some (if v.truthy then v.pyStr
                                     else "Unknown error"),
                      task_id := some h.id,
                      elapsed_seconds := env.clock (ci + 1) - env.clock 0 },
                ci + 2, log0 ++ dlog) := by
  intro fuel log0 hf
  obtain ⟨m, rfl⟩ : ∃ m, fuel = k + (m + 1) := ⟨fuel - k - 1, by omega⟩
  rw [tryBody_reaches hr (m + 1) log0]
  simp only [tryBody, hrdy, hsucc, hres, if_neg (not_lt.mpr hnl)]

/-- The `execute_sync` polling loop is the `execute_async` polling loop of
an environment with no progress callback (the two transcriptions differ
only in the callback branch, which `execute_sync` does not have). -/
lemma syncBody_eq_tryBody (env : Env) (h : HandleB) (timeout : Int)
    (pollI ckI : ℚ) (lastCk : ℚ) :
    ∀ fuel iter ci log,
      syncBody env h timeout pollI fuel iter ci log
        = tryBody { env with onCheckpoint := none } h timeout pollI ckI fuel
            iter lastCk ci log := by
  intro fuel
  induction fuel with
  | zero => intro iter ci log; rfl
  | succ fuel ih =>
    intro iter ci log
    simp only [syncBody, tryBody]
    split
    · rfl
    · cases h.ready iter with
      | error e => rfl
      | ok b =>
        cases b with
        | true => rfl
        | false => exact ih (iter + 1) (ci + 1) (log ++ [.sleep pollI])

/-- An environment whose `onCheckpoint` is already `none` is unchanged by
setting it to `none`. -/
lemma env_noCb_eta (env : Env) (hcb : env.onCheckpoint = none) :
    { env with onCheckpoint := none } = env := by
  cases env
  simp only at hcb
  simp [hcb]

/-- A run of `k` iterations that all observe `elapsed ≤ timeout` and a
non-ready handle is a `Reaches` derivation of the callback-free loop. -/
lemma reaches_noCb (env : Env) (h : HandleB) (timeout : Int)
    (pollI ckI : ℚ) (k : Nat)
    (hst : ∀ i, i < k →
      env.clock (i + 1) - env.clock 0 ≤ (timeout : ℚ) ∧ h.ready i = .ok false) :
    Reaches { env with onCheckpoint := none } h timeout pollI ckI
      k (k + 1) (env.clock 0) (List.replicate k (.sleep pollI)) := by
  induction k with
  | zero => exact .zero
  | succ k ih =>
    have prev := ih (fun i hi => hst i (by omega))
    have hk := hst k (by omega)
    have step := @Reaches.stepNoCb { env with onCheckpoint := none } h
      timeout pollI ckI k (k + 1) (env.clock 0)
      (List.replicate k (.sleep pollI)) prev rfl hk.1 hk.2
    rw [List.replicate_succ' k]
    exact step

/-- The polling loop only ever appends to the event log it is given. -/
lemma tryBody_log_extends {env : Env} {h : HandleB} {timeout : Int}
    {pollI ckI : ℚ} :
    ∀ fuel iter lastCk ci log0 o ci' log',
      tryBody env h timeout pollI ckI fuel iter lastCk ci log0
        = some (o, ci', log') →
      ∃ d, log' = log0 ++ d := by
  intro fuel
  induction fuel with
  | zero =>
    intro iter lastCk ci log0 o ci' log' heq
    exact absurd heq (by simp [tryBody])
  | succ fuel ih =>
    intro iter lastCk ci log0 o ci' log' heq
    simp only [tryBody] at heq
    split at heq
    · simp only [Option.some.injEq, Prod.mk.injEq] at heq
      exact ⟨[.cancel true "SIGKILL"], heq.2.2.symm⟩
    · split at heq
      · simp only [Option.some.injEq, Prod.mk.injEq] at heq
        exact ⟨[], by simp [heq.2.2.symm]⟩
      · split at heq
        · simp only [Option.some.injEq, Prod.mk.injEq] at heq
          exact ⟨[], by simp [heq.2.2.symm]⟩
        · split at heq
          · simp only [Option.some.injEq, Prod.mk.injEq] at heq
            exact ⟨[], by simp [heq.2.2.symm]⟩
          · simp only [Option.some.injEq, Prod.mk.injEq] at heq
            exact ⟨[], by simp [heq.2.2.symm]⟩
        · split at heq
          · simp only [Option.some.injEq, Prod.mk.injEq] at heq
            exact ⟨[], by simp [heq.2.2.symm]⟩
          · simp only [Option.some.injEq, Prod.mk.injEq] at heq
            exact ⟨[], by simp [heq.2.2.symm]⟩
      · split at heq
        · obtain ⟨d, rfl⟩ := ih _ _ _ _ _ _ _ heq
          exact ⟨[.sleep pollI] ++ d, by simp⟩
        · split at heq
          · split at heq
            · simp only [Option.some.injEq, Prod.mk.injEq] at heq
              exact ⟨[.progress h.id "started"
                        (env.clock ci - env.clock 0)], heq.2.2.symm⟩
            · obtain ⟨d, rfl⟩ := ih _ _ _ _ _ _ _ heq
              exact ⟨[.progress h.id "started" (env.clock ci - env.clock 0),
                      .sleep pollI] ++ d, by simp⟩
          · obtain ⟨d, rfl⟩ := ih _ _ _ _ _ _ _ heq
            exact ⟨[.sleep pollI] ++ d, by simp⟩

/-- Every normal result the polling loop produces has one of three shapes:
a `TIMEOUT` with the timeout message, a `SUCCESS` with no error, or a
`FAILURE` with an error message; in all three the payload field is `.vNone`
unless the status is `SUCCESS`, and the task id is the handle's. -/
lemma tryBody_ok_shape {env : Env} {h : HandleB} {timeout : Int}
    {pollI ckI : ℚ} :
    ∀ fuel iter lastCk ci log0 r ci' log',
      tryBody env h timeout pollI ckI fuel iter lastCk ci log0
        = some (.ok r, ci', log') →
      (r.status = .TIMEOUT ∧ r.result = .vNone
          ∧ r.error = some (timeoutMsg timeout) ∧ r.task_id = some h.id)
      ∨ (r.status = .SUCCESS ∧ r.error = none ∧ r.task_id = some h.id)
      ∨ (r.status = .FAILURE ∧ r.result = .vNone
          ∧ (∃ m, r.error = some m) ∧ r.task_id = some h.id) := by
  intro fuel
  induction fuel with
  | zero =>
    intro iter lastCk ci log0 r ci' log' heq
    exact absurd heq (by simp [tryBody])
  | succ fuel ih =>
    intro iter lastCk ci log0 r ci' log' heq
    simp only [tryBody] at heq
    split at heq
    · simp only [Option.some.injEq, Prod.mk.injEq, Except.ok.injEq] at heq
      rw [← heq.1]
      exact Or.inl ⟨rfl, rfl, rfl, rfl⟩
    · split at heq
      · simp at heq
      · split at heq
        · simp at heq
        · split at heq
          · simp at heq
          · simp only [Option.some.injEq, Prod.mk.injEq,
              Except.ok.injEq] at heq
            rw [← heq.1]
            exact Or.inr (Or.inl ⟨rfl, rfl, rfl⟩)
        · split at heq
          · simp at heq
          · simp only [Option.some.injEq, Prod.mk.injEq,
              Except.ok.injEq] at heq
            rw [← heq.1]
            exact Or.inr (Or.inr ⟨rfl, rfl, ⟨_, rfl⟩, rfl⟩)
      · split at heq
        · exact ih _ _ _ _ _ _ _ heq
        · split at heq
          · split at heq
            · simp at heq
            · exact ih _ _ _ _ _ _ _ heq
          · exact ih _ _ _ _ _ _ _ heq

/-- Bridge: a normal loop outcome is returned as-is by `execute_async`. -/
lemma executeAsync_handle_ok {env : Env} {h : HandleB} {tn : String}
    {timeout : Int} {pollI ckI : ℚ} {fuel : Nat} {r : GpuTaskResult}
    {ci : Nat} {log : List Ev}
    (hm : env.mockMode = false) (hs : env.submission = .handle h)
    (htb : tryBody env h timeout pollI ckI fuel 0 (env.clock 0) 1
        (preLog env tn ++ [.submitCall]) = some (.ok r, ci, log)) :
    executeAsync env tn timeout pollI ckI fuel = some (r, log) := by
  unfold executeAsync
  rw [hm, hs]
  simp [htb]

/-- Bridge: the `except Exception` handler of `execute_async` (manager.py
lines 184-191) converts a raised exception into a `FAILURE` result carrying
the exception's message, with a fresh `elapsed` reading. -/
lemma executeAsync_catch {env : Env} {h : HandleB} {tn : String}
    {timeout : Int} {pollI ckI : ℚ} {fuel : Nat} {e : String}
    {ci : Nat} {log : List Ev}
    (hm : env.mockMode = false) (hs : env.submission = .handle h)
    (htb : tryBody env h timeout pollI ckI fuel 0 (env.clock 0) 1
        (preLog env tn ++ [.submitCall]) = some (.error e, ci, log)) :
    executeAsync env tn timeout pollI ckI fuel
      = some ({ status := .FAILURE, error := some e, task_id := some h.id,
                elapsed_seconds := env.clock ci - env.clock 0 }, log) := by
  unfold executeAsync
  rw [hm, hs]
  simp [htb]

/-- Bridge: a normal loop outcome is returned as-is by `execute_sync`. -/
lemma executeSync_handle_ok {env : Env} {h : HandleB}
    {timeout : Int} {pollI : ℚ} {fuel : Nat} {r : GpuTaskResult}
    {ci : Nat} {log : List Ev}
    (hm : env.mockMode = false) (hs : env.submission = .handle h)
    (htb : syncBody env h timeout pollI fuel 0 1 [.submitCall]
        = some (.ok r, ci, log)) :
    executeSync env timeout pollI fuel = some (r, log) := by
  unfold executeSync
  rw [hm, hs]
  simp [htb]

/-- Bridge: the `except Exception` handler of `execute_sync` (manager.py
lines 277-284). -/
lemma executeSync_catch {env : Env} {h : HandleB}
    {timeout : Int} {pollI : ℚ} {fuel : Nat} {e : String}
    {ci : Nat} {log : List Ev}
    (hm : env.mockMode = false) (hs : env.submission = .handle h)
    (htb : syncBody env h timeout pollI fuel 0 1 [.submitCall]
        = some (.error e, ci, log)) :
    executeSync env timeout pollI fuel
      = some ({ status := .FAILURE, error := some e, task_id := some h.id,
                elapsed_seconds := env.clock ci - env.clock 0 }, log) := by
  unfold executeSync
  rw [hm, hs]
  simp [htb]

/-- Every result `execute_async` produces satisfies the invariant. -/
lemma resultEnvInvariant_of_async {env : Env} {tn : String} {timeout : Int}
    {pollI ckI : ℚ} {fuel : Nat} {r : GpuTaskResult} {log : List Ev}
    (heq : executeAsync env tn timeout pollI ckI fuel = some (r, log)) :
    resultEnvInvariant r := by
  unfold executeAsync at heq
  split at heq
  · simp only [Option.some.injEq, Prod.mk.injEq] at heq
    rw [← heq.1]
    exact ⟨by simp, by simp, fun _ => rfl⟩
  · split at heq
    · simp only [Option.some.injEq, Prod.mk.injEq] at heq
      rw [← heq.1]
      exact ⟨by simp, by simp, fun _ => rfl⟩
    · rename_i hn hsub
      cases htb : tryBody env hn timeout pollI ckI fuel 0 (env.clock 0) 1
          (preLog env tn ++ [.submitCall]) with
      | none => rw [htb] at heq; simp at heq
      | some t =>
        obtain ⟨o, ci', log'⟩ := t
        rw [htb] at heq
        cases o with
        | error e =>
          simp only [Option.some.injEq, Prod.mk.injEq] at heq
          rw [← heq.1]
          exact ⟨by simp, by simp, by simp⟩
        | ok r0 =>
          simp only [Option.some.injEq, Prod.mk.injEq] at heq
          rw [← heq.1]
          rcases tryBody_ok_shape _ _ _ _ _ _ _ _ htb with
            ⟨h1, h2, h3, _⟩ | ⟨h1, h2, _⟩ | ⟨h1, h2, ⟨m, h3⟩, _⟩
          · exact ⟨by simp [h1, h3], by simp [h1, h3], by simp [h2]⟩
          · exact ⟨by simp [h1, h2], by simp [h1, h2], fun _ => h1⟩
          · exact ⟨by simp [h1, h3], by simp [h1, h3], by simp [h2]⟩

/-- Every result `execute_sync` produces satisfies the invariant. -/
lemma resultEnvInvariant_of_sync {env : Env} {timeout : Int}
    {pollI : ℚ} {fuel : Nat} {r : GpuTaskResult} {log : List Ev}
    (heq : executeSync env timeout pollI fuel = some (r, log)) :
    resultEnvInvariant r := by
  unfold executeSync at heq
  split at heq
  · simp only [Option.some.injEq, Prod.mk.injEq] at heq
    rw [← heq.1]
    exact ⟨by simp, by simp, fun _ => rfl⟩
  · split at heq
    · simp only [Option.some.injEq, Prod.mk.injEq] at heq
      rw [← heq.1]
      exact ⟨by simp, by simp, fun _ => rfl⟩
    · rename_i hn hsub
      cases htb : syncBody env hn timeout pollI fuel 0 1 [.submitCall] with
      | none => rw [htb] at heq; simp at heq
      | some t =>
        obtain ⟨o, ci', log'⟩ := t
        rw [htb] at heq
        cases o with
        | error e =>
          simp only [Option.some.injEq, Prod.mk.injEq] at heq
          rw [← heq.1]
          exact ⟨by simp, by simp, by simp⟩
        | ok r0 =>
          simp only [Option.some.injEq, Prod.mk.injEq] at heq
          rw [← heq.1]
          rw [syncBody_eq_tryBody env hn timeout pollI 0 (env.clock 0)]
            at htb
          rcases tryBody_ok_shape _ _ _ _ _ _ _ _ htb with
            ⟨h1, h2, h3, _⟩ | ⟨h1, h2, _⟩ | ⟨h1, h2, ⟨m, h3⟩, _⟩
          · exact ⟨by simp [h1, h3], by simp [h1, h3], by simp [h2]⟩
          · exact ⟨by simp [h1, h2], by simp [h1, h2], fun _ => h1⟩
          · exact ⟨by simp [h1, h3], by simp [h1, h3], by simp [h2]⟩

/-- With no callback and no checkpointer supplied, the two execution modes
are the same function of the environment: same results, same events, same
clock consumption. -/
lemma async_eq_sync {env : Env} {tn : String} {timeout : Int}
    {pollI ckI : ℚ} {fuel : Nat}
    (hcb : env.onCheckpoint = none) (hcp : env.checkpointer = none) :
    executeAsync env tn timeout pollI ckI fuel
      = executeSync env timeout pollI fuel := by
  have hpre : preLog env tn = [] := by unfold preLog; rw [hcp]
  have hloop : ∀ h fuel iter ci log,
      tryBody env h timeout pollI ckI fuel iter (env.clock 0) ci log
        = syncBody env h timeout pollI fuel iter ci log := by
    intro h fuel iter ci log
    rw [syncBody_eq_tryBody env h timeout pollI ckI (env.clock 0),
      env_noCb_eta env hcb]
  unfold executeAsync executeSync
  rw [hpre]
  cases env.mockMode
  · cases env.submission with
    | direct v => simp
    | handle h => simp [hloop h]
  · simp

/-!  Helper lemmas about the distributed lock. -/

/-- If every attempt in range fails, the blocking retry loop exhausts its
budget and returns `none`, having made exactly `rem` attempts. -/
lemma acquireGo_exhaust {env : LockEnv} {ri : ℚ} :
    ∀ rem n log, (∀ j, j < rem → env.tryAcquire (n + j) = false) →
      acquireGo env ri rem n log = (none, log ++ retryLog ri n rem) := by
  intro rem
  induction rem with
  | zero => intro n log hf; simp [acquireGo, retryLog]
  | succ rem ih =>
    intro n log hf
    have h0 : env.tryAcquire n = false := by
      have := hf 0 (by omega); simpa using this
    rw [acquireGo, if_neg (by simp [h0])]
    rw [ih (n + 1) _ (fun j hj => by
      have := hf (j + 1) (by omega)
      simpa [Nat.add_assoc, Nat.add_comm 1 j] using this)]
    simp [retryLog]

/-- If attempt `n + i` is the first to succeed and it is within the retry
budget, the blocking retry loop returns its token at that attempt. -/
lemma acquireGo_success {env : LockEnv} {ri : ℚ} :
    ∀ i rem n log, i < rem → env.tryAcquire (n + i) = true →
      (∀ j, j < i → env.tryAcquire (n + j) = false) →
      acquireGo env ri rem n log
        = (some (n + i), log ++ retryLog ri n i ++ [.attempt (n + i)]) := by
  intro i
  induction i with
  | zero =>
    intro rem n log hlt hok hf
    obtain ⟨r, rfl⟩ : ∃ r, rem = r + 1 := ⟨rem - 1, by omega⟩
    rw [acquireGo, if_pos (by simpa using hok)]
    simp [retryLog]
  | succ i ih =>
    intro rem n log hlt hok hf
    obtain ⟨r, rfl⟩ : ∃ r, rem = r + 1 := ⟨rem - 1, by omega⟩
    have h0 : env.tryAcquire n = false := by
      have := hf 0 (by omega); simpa using this
    rw [acquireGo, if_neg (by simp [h0])]
    rw [ih r (n + 1) _ (by omega)
      (by rw [show n + 1 + i = n + (i + 1) by omega]; exact hok)
      (fun j hj => by
        have := hf (j + 1) (by omega)
        rw [show n + 1 + j = n + (j + 1) by omega]; exact this)]
    rw [show n + 1 + i = n + (i + 1) by omega]
    simp [retryLog]

/-- The retry loop's event log contains only attempts and sleeps. -/
lemma acquireGo_log_events {env : LockEnv} {ri : ℚ} :
    ∀ rem n log,
      (∀ e ∈ log, e ≠ .enter ∧ e ≠ .release) →
      ∀ e ∈ (acquireGo env ri rem n log).2, e ≠ .enter ∧ e ≠ .release := by
  intro rem
  induction rem with
  | zero => intro n log hl; simpa [acquireGo] using hl
  | succ rem ih =>
    intro n log hl
    rw [acquireGo]
    split
    · intro e he
      rcases List.mem_append.mp he with h' | h'
      · exact hl e h'
      · rcases List.mem_singleton.mp h' with rfl
        exact ⟨by simp, by simp⟩
    · refine ih (n + 1) _ (fun e he => ?_)
      rcases List.mem_append.mp he with h' | h'
      · exact hl e h'
      · rcases List.mem_cons.mp h' with rfl | h''
        · exact ⟨by simp, by simp⟩
        · rcases List.mem_singleton.mp h'' with rfl
          exact ⟨by simp, by simp⟩

/-- The `acquire` event log contains only attempts and sleeps; in
particular the critical section marker never appears in it. -/
lemma acquire_log_events (env : LockEnv) (blocking : Bool) (ri : ℚ)
    (mr : Nat) :
    ∀ e ∈ (acquire env blocking ri mr).2, e ≠ .enter ∧ e ≠ .release := by
  unfold acquire
  cases blocking
  · intro e he
    have he' : e = .attempt 0 := by
      cases hta : env.tryAcquire 0 <;> simpa [hta] using he
    rw [he']
    exact ⟨by simp, by simp⟩
  · exact acquireGo_log_events mr 0 [] (by simp)

/-- The pre-submission checkpoint events contain no cancellation. -/
lemma countP_cancel_preLog (env : Env) (tn : String) :
    (preLog env tn).countP isCancelEv = 0 :=
  List.countP_eq_zero.mpr fun e he => by simp [preLog_no_cancel env tn e he]

/-- The pre-submission checkpoint events contain no suspension. -/
lemma countP_sleep_preLog (env : Env) (tn : String) :
    (preLog env tn).countP isSleepEv = 0 := by
  unfold preLog
  cases env.checkpointer with
  | none => simp
  | some p => cases htr : env.state.truthy <;> simp [htr, isSleepEv]

/-- The loop iterations issue no cancellation requests. -/
lemma countP_cancel_reaches {env : Env} {h : HandleB} {timeout : Int}
    {pollI ckI : ℚ} {k ci : Nat} {lastCk : ℚ} {dlog : List Ev}
    (hr : Reaches env h timeout pollI ckI k ci lastCk dlog) :
    dlog.countP isCancelEv = 0 :=
  List.countP_eq_zero.mpr fun e he => by
    simp [(reaches_dlog_events hr e he).1]

/-- Sleep events of the synchronous loop are not cancellations. -/
lemma countP_cancel_replicate (k : Nat) (pollI : ℚ) :
    (List.replicate k (Ev.sleep pollI)).countP isCancelEv = 0 :=
  List.countP_eq_zero.mpr fun e he => by
    rw [List.eq_of_mem_replicate he]; simp [isCancelEv]

/-- `i` failed attempts contribute exactly `i` attempt events. -/
lemma retryLog_attempt_count (ri : ℚ) :
    ∀ c s, (retryLog ri s c).countP isAttemptEv = c := by
  intro c
  induction c with
  | zero => intro s; simp [retryLog]
  | succ c ih =>
    intro s
    simp [retryLog, List.countP_cons, isAttemptEv, ih]

/-!  Claim theorems. -/

/-- Claim C1: in either execution mode, for every invocation in which the
elapsed time exceeds the configured timeout at some poll before any poll
observes readiness, the invocation returns a result whose status is
exactly `TIMEOUT` with an error message naming the configured timeout, and
exactly one cancellation request — with `terminate=True` and `SIGKILL`,
i.e. forceful termination — is issued against that handle before the
result is returned (the cancel event is the last event of the log). -/
theorem execute_timeout_cancels_once
    (env : Env) (h : HandleB) (tn : String) (timeout : Int) (pollI ckI : ℚ)
    (fuel : Nat)
    (hm : env.mockMode = false) (hs : env.submission = .handle h)
    (k ci : Nat) (lastCk : ℚ) (dlog : List Ev)
    (hr : Reaches env h timeout pollI ckI k ci lastCk dlog)
    (hlate : (timeout : ℚ) < env.clock ci - env.clock 0)
    (hfuel : k < fuel)
    (ks : Nat)
    (hrun : ∀ i, i < ks → env.clock (i + 1) - env.clock 0 ≤ (timeout : ℚ)
      ∧ h.ready i = .ok false)
    (hlateS : (timeout : ℚ) < env.clock (ks + 1) - env.clock 0)
    (hfuelS : ks < fuel) :
    (executeAsync env tn timeout pollI ckI fuel
        = some ({ status := .TIMEOUT, error := some (timeoutMsg timeout),
                  task_id := some h.id,
                  elapsed_seconds := env.clock ci - env.clock 0 },
                preLog env tn ++ [Ev.submitCall] ++ dlog
                  ++ [Ev.cancel true "SIGKILL"])
      ∧ (preLog env tn ++ [Ev.submitCall] ++ dlog
          ++ [Ev.cancel true "SIGKILL"]).countP isCancelEv = 1)
    ∧ (executeSync env timeout pollI fuel
        = some ({ status := .TIMEOUT, error := some (timeoutMsg timeout),
                  task_id := some h.id,
                  elapsed_seconds := env.clock (ks + 1) - env.clock 0 },
                [Ev.submitCall] ++ List.replicate ks (Ev.sleep pollI)
                  ++ [Ev.cancel true "SIGKILL"])
      ∧ ([Ev.submitCall] ++ List.replicate ks (Ev.sleep pollI)
          ++ [Ev.cancel true "SIGKILL"]).countP isCancelEv = 1) := by
  constructor
  · constructor
    · have htb := tryBody_timeout hr hlate fuel
        (preLog env tn ++ [.submitCall]) hfuel
      have := executeAsync_handle_ok hm hs htb
      simpa [List.append_assoc] using this
    · simp [List.countP_append, countP_cancel_preLog, countP_cancel_reaches hr,
        isCancelEv]
  · have hre := reaches_noCb env h timeout pollI ckI ks hrun
    have htb := tryBody_timeout hre hlateS fuel [.submitCall] hfuelS
    rw [← syncBody_eq_tryBody env h timeout pollI ckI (env.clock 0)] at htb
    constructor
    · have := executeSync_handle_ok hm hs htb
      simpa [List.append_assoc] using this
    · simp [List.countP_append, countP_cancel_replicate, isCancelEv]

/-- Claim C1 witness: a concrete never-ready handle under a clock that
jumps past the 50-second timeout before the first poll. -/
theorem execute_timeout_cancels_once_witness :
    (executeAsync envW1 "t" 50 1 30 3
        = some ({ status := .TIMEOUT, error := some (timeoutMsg 50),
                  task_id := some hW1.id,
                  elapsed_seconds := envW1.clock 1 - envW1.clock 0 },
                preLog envW1 "t" ++ [Ev.submitCall] ++ []
                  ++ [Ev.cancel true "SIGKILL"])
      ∧ (preLog envW1 "t" ++ [Ev.submitCall] ++ []
          ++ [Ev.cancel true "SIGKILL"]).countP isCancelEv = 1)
    ∧ (executeSync envW1 50 1 3
        = some ({ status := .TIMEOUT, error := some (timeoutMsg 50),
                  task_id := some hW1.id,
                  elapsed_seconds := envW1.clock (0 + 1) - envW1.clock 0 },
                [Ev.submitCall] ++ List.replicate 0 (Ev.sleep 1)
                  ++ [Ev.cancel true "SIGKILL"])
      ∧ ([Ev.submitCall] ++ List.replicate 0 (Ev.sleep 1)
          ++ [Ev.cancel true "SIGKILL"]).countP isCancelEv = 1) :=
  execute_timeout_cancels_once envW1 hW1 "t" 50 1 30 3 rfl rfl
    0 1 (envW1.clock 0) [] Reaches.zero (by norm_num [envW1]) (by omega)
    0 (fun i hi => absurd hi (Nat.not_lt_zero i)) (by norm_num [envW1])
    (by omega)

/-- Claim C2: in both execution modes, any exception raised during the
polling loop or result retrieval is caught and converted into a result
with status `FAILURE` whose error field carries the exception's message;
the coordinator returns a typed result to its caller rather than
propagating the exception.  The first two conjuncts state this for every
possible exceptional outcome of either mode's try-block; the third
instantiates it for an exception raised by a `ready()` call at an
arbitrary reached iteration. -/
theorem coordinator_contains_exceptions
    (env : Env) (h : HandleB) (tn : String) (timeout : Int) (pollI ckI : ℚ)
    (fuel : Nat)
    (hm : env.mockMode = false) (hs : env.submission = .handle h) :
    (∀ e ci log,
      tryBody env h timeout pollI ckI fuel 0 (env.clock 0) 1
          (preLog env tn ++ [Ev.submitCall]) = some (.error e, ci, log) →
      executeAsync env tn timeout pollI ckI fuel
        = some ({ status := .FAILURE, error := some e, task_id := some h.id,
                  elapsed_seconds := env.clock ci - env.clock 0 }, log))
    ∧ (∀ e ci log,
      syncBody env h timeout pollI fuel 0 1 [Ev.submitCall]
          = some (.error e, ci, log) →
      executeSync env timeout pollI fuel
        = some ({ status := .FAILURE, error := some e, task_id := some h.id,
                  elapsed_seconds := env.clock ci - env.clock 0 }, log))
    ∧ (∀ k ci lastCk dlog e,
      Reaches env h timeout pollI ckI k ci lastCk dlog →
      env.clock ci - env.clock 0 ≤ (timeout : ℚ) →
      h.ready k = .error e → k < fuel →
      executeAsync env tn timeout pollI ckI fuel
        = some ({ status := .FAILURE, error := some e, task_id := some h.id,
                  elapsed_seconds := env.clock (ci + 1) - env.clock 0 },
                preLog env tn ++ [Ev.submitCall] ++ dlog)) := by
  refine ⟨fun e ci log htb => executeAsync_catch hm hs htb,
    fun e ci log htb => executeSync_catch hm hs htb,
    fun k ci lastCk dlog e hr hnl hrdy hfuel => ?_⟩
  have htb := tryBody_ready_error hr hnl hrdy fuel
    (preLog env tn ++ [Ev.submitCall]) hfuel
  have := executeAsync_catch hm hs htb
  simpa [List.append_assoc] using this

/-- Claim C2 witness: a handle whose first `ready()` call raises "boom";
the invocation returns `FAILURE` with error "boom". -/
theorem coordinator_contains_exceptions_witness :
    executeAsync envW2 "t" 50 1 30 3
      = some ({ status := .FAILURE, error := some "boom",
                task_id := some hW2.id,
                elapsed_seconds := envW2.clock (1 + 1) - envW2.clock 0 },
              preLog envW2 "t" ++ [Ev.submitCall] ++ []) :=
  (coordinator_contains_exceptions envW2 hW2 "t" 50 1 30 3 rfl rfl).2.2
    0 1 (envW2.clock 0) [] "boom" Reaches.zero (by norm_num [envW2]) rfl
    (by omega)

/-- Claim C3 (counterexample): the spec's invariant "status == Success iff
payload is present and error is absent" fails on the code: a mock-mode
task returning Python `None` yields a result with status `SUCCESS` whose
payload field is `None` (absent). -/
theorem result_invariant_counterexample :
    executeAsync envX3 "t" 50 1 30 3
      = some ({ status := .SUCCESS, result := .vNone, error := none,
                task_id := some "mock-task",
                elapsed_seconds := envX3.clock 1 - envX3.clock 0 },
              [Ev.submitCall])
    ∧ ¬ specResultInvariant
        { status := .SUCCESS, result := .vNone, error := none,
          task_id := some "mock-task",
          elapsed_seconds := envX3.clock 1 - envX3.clock 0 } :=
  ⟨rfl, by decide⟩

/-- Claim C3 (amended): every result envelope either mode produces
satisfies: status ∈ {Failure, Timeout} iff the error field is present;
status == Success iff the error field is absent; and a present (non-None)
payload only ever accompanies status Success — but on Success the payload
may itself be absent, when the task's value was Python `None`. -/
theorem result_invariant_amended
    (env : Env) (tn : String) (timeout : Int) (pollI ckI : ℚ) (fuel : Nat)
    (r rs : GpuTaskResult) (log logs : List Ev)
    (ha : executeAsync env tn timeout pollI ckI fuel = some (r, log))
    (hb : executeSync env timeout pollI fuel = some (rs, logs)) :
    resultEnvInvariant r ∧ resultEnvInvariant rs :=
  ⟨resultEnvInvariant_of_async ha, resultEnvInvariant_of_sync hb⟩

/-- Claim C3 witness (for the amended invariant): a mock-mode invocation
returning a truthy string satisfies the invariant in both modes. -/
theorem result_invariant_amended_witness :
    resultEnvInvariant
      { status := .SUCCESS, result := .vStr "ok", error := none,
        task_id := some "mock-task",
        elapsed_seconds := envW3.clock 1 - envW3.clock 0 }
    ∧ resultEnvInvariant
      { status := .SUCCESS, result := .vStr "ok", error := none,
        task_id := some "mock-task",
        elapsed_seconds := envW3.clock 1 - envW3.clock 0 } :=
  result_invariant_amended envW3 "t" 50 1 30 3 _ _
    [Ev.submitCall] [Ev.submitCall] rfl rfl

/-- Claim C4: for every invocation whose handle becomes ready at a poll
within the timeout: if the handle reports success the result is `SUCCESS`
with no error and with payload equal to the handle's value; if it reports
failure the result is `FAILURE` with no payload and with error equal to
the string form of the handle's error information, or "Unknown error" when
none (nothing truthy) is available. -/
theorem ready_result_semantics
    (env : Env) (h : HandleB) (tn : String) (timeout : Int) (pollI ckI : ℚ)
    (fuel : Nat)
    (hm : env.mockMode = false) (hs : env.submission = .handle h)
    (k ci : Nat) (lastCk : ℚ) (dlog : List Ev)
    (hr : Reaches env h timeout pollI ckI k ci lastCk dlog)
    (hnl : env.clock ci - env.clock 0 ≤ (timeout : ℚ))
    (hrdy : h.ready k = .ok true) (hfuel : k < fuel) :
    (∀ v, h.successful = .ok true → h.getResult = .ok v →
      executeAsync env tn timeout pollI ckI fuel
        = some ({ status := .SUCCESS, result := v, error := none,
                  task_id := some h.id,
                  elapsed_seconds := env.clock (ci + 1) - env.clock 0 },
                preLog env tn ++ [Ev.submitCall] ++ dlog))
    ∧ (∀ v, h.successful = .ok false → h.getResult = .ok v →
      executeAsync env tn timeout pollI ckI fuel
        = some ({ status := .FAILURE, result := .vNone,
                  error := some (if v.truthy then v.pyStr
                                 else "Unknown error"),
                  task_id := some h.id,
                  elapsed_seconds := env.clock (ci + 1) - env.clock 0 },
                preLog env tn ++ [Ev.submitCall] ++ dlog)) := by
  constructor
  · intro v hsucc hres
    have htb := tryBody_exit_success hr hnl hrdy hsucc hres fuel
      (preLog env tn ++ [Ev.submitCall]) hfuel
    have := executeAsync_handle_ok hm hs htb
    simpa [List.append_assoc] using this
  · intro v hsucc hres
    have htb := tryBody_exit_failure hr hnl hrdy hsucc hres fuel
      (preLog env tn ++ [Ev.submitCall]) hfuel
    have := executeAsync_handle_ok hm hs htb
    simpa [List.append_assoc] using this

/-- Claim C4 witness: a handle ready at the first poll with a succeeding
outcome yields `SUCCESS` carrying its value; one with a failing outcome
and truthy error information "bad input" yields `FAILURE` with that
message. -/
theorem ready_result_semantics_witness :
    executeAsync envW4s "t" 50 1 30 3
      = some ({ status := .SUCCESS, result := .vStr "val", error := none,
                task_id := some hW4s.id,
                elapsed_seconds := envW4s.clock (1 + 1) - envW4s.clock 0 },
              preLog envW4s "t" ++ [Ev.submitCall] ++ [])
    ∧ executeAsync envW4f "t" 50 1 30 3
      = some ({ status := .FAILURE, result := .vNone,
                error := some (if (PyVal.vStr "bad input").truthy
                               then (PyVal.vStr "bad input").pyStr
                               else "Unknown error"),
                task_id := some hW4f.id,
                elapsed_seconds := envW4f.clock (1 + 1) - envW4f.clock 0 },
              preLog envW4f "t" ++ [Ev.submitCall] ++ []) :=
  ⟨(ready_result_semantics envW4s hW4s "t" 50 1 30 3 rfl rfl
      0 1 (envW4s.clock 0) [] Reaches.zero (by norm_num [envW4s]) rfl
      (by omega)).1 (.vStr "val") rfl rfl,
   (ready_result_semantics envW4f hW4f "t" 50 1 30 3 rfl rfl
      0 1 (envW4f.clock 0) [] Reaches.zero (by norm_num [envW4f]) rfl
      (by omega)).2 (.vStr "bad input") rfl rfl⟩

/-- Claim C5 (counterexample): the claim fails for a supplied but falsy
snapshot.  The coordinator guards the checkpoint with Python truthiness
(`if checkpointer and state:`, manager.py line 106), so an invocation
supplied with a checkpoint sink and the empty-dict snapshot `{}` performs
no `put` call at all, even though both arguments were supplied. -/
theorem checkpoint_before_submit_counterexample :
    executeAsync envX5 "t" 50 1 30 3
      = some ({ status := .SUCCESS, result := .vInt 1, error := none,
                task_id := some "mock-task",
                elapsed_seconds := envX5.clock 1 - envX5.clock 0 },
              [Ev.submitCall])
    ∧ envX5.checkpointer.isSome = true
    ∧ envX5.state ≠ .vNone
    ∧ [Ev.submitCall].countP isPutEv = 0 :=
  ⟨rfl, rfl, by decide, rfl⟩

/-- Claim C5 (amended): for every invocation supplied with a checkpoint
sink and a truthy (e.g. non-empty) state snapshot, the sink's `put` —
tagged with the stage "pre_gpu" and the task name — is the first event of
the invocation and the submission call is the second, so the checkpoint
call strictly precedes the submission call on every such invocation,
whatever its eventual outcome. -/
theorem checkpoint_before_submit_amended
    (env : Env) (tn : String) (timeout : Int) (pollI ckI : ℚ) (fuel : Nat)
    (pb : Except String Unit) (hcp : env.checkpointer = some pb)
    (hst : env.state.truthy = true)
    (r : GpuTaskResult) (log : List Ev)
    (heq : executeAsync env tn timeout pollI ckI fuel = some (r, log)) :
    ∃ rest, log = Ev.put "pre_gpu" tn :: Ev.submitCall :: rest := by
  have hpre : preLog env tn = [Ev.put "pre_gpu" tn] := by
    unfold preLog
    rw [hcp, hst]
    simp
  unfold executeAsync at heq
  rw [hpre] at heq
  split at heq
  · simp only [Option.some.injEq, Prod.mk.injEq] at heq
    exact ⟨[], heq.2.symm⟩
  · split at heq
    · simp only [Option.some.injEq, Prod.mk.injEq] at heq
      exact ⟨[], heq.2.symm⟩
    · rename_i hn hsub
      cases htb : tryBody env hn timeout pollI ckI fuel 0 (env.clock 0) 1
          ([Ev.put "pre_gpu" tn] ++ [Ev.submitCall]) with
      | none => rw [htb] at heq; simp at heq
      | some t =>
        obtain ⟨o, ci', log'⟩ := t
        rw [htb] at heq
        obtain ⟨d, rfl⟩ := tryBody_log_extends _ _ _ _ _ _ _ _ htb
        cases o with
        | ok r0 =>
          simp only [Option.some.injEq, Prod.mk.injEq] at heq
          exact ⟨d, heq.2.symm⟩
        | error e =>
          simp only [Option.some.injEq, Prod.mk.injEq] at heq
          exact ⟨d, heq.2.symm⟩

/-- Claim C5 witness: sink plus non-empty snapshot in mock mode — the log
is exactly `put` then the submission call. -/
theorem checkpoint_before_submit_amended_witness :
    ∃ rest, ([Ev.put "pre_gpu" "t", Ev.submitCall] : List Ev)
      = Ev.put "pre_gpu" "t" :: Ev.submitCall :: rest :=
  checkpoint_before_submit_amended envW5 "t" 50 1 30 3 (.ok ()) rfl rfl
    { status := .SUCCESS, result := .vInt 1, error := none,
      task_id := some "mock-task",
      elapsed_seconds := envW5.clock 1 - envW5.clock 0 }
    [Ev.put "pre_gpu" "t", Ev.submitCall] rfl

/-- Claim C6 (counterexample): the claim that both modes implement the
same six-step algorithm *including the pre-submission checkpoint step* is
false: on one and the same environment — sink and truthy snapshot
supplied — the cooperative mode's event log opens with the checkpoint
`put` while the thread-blocking mode (which accepts no checkpointer, no
snapshot and no progress callback, manager.py lines 193-198) performs no
`put` at all. -/
theorem modes_same_algorithm_counterexample :
    executeAsync envX6 "t" 50 1 30 3
      = some ({ status := .SUCCESS, result := .vInt 7, error := none,
                task_id := some "mock-task",
                elapsed_seconds := envX6.clock 1 - envX6.clock 0 },
              [Ev.put "pre_gpu" "t", Ev.submitCall])
    ∧ executeSync envX6 50 1 3
      = some ({ status := .SUCCESS, result := .vInt 7, error := none,
                task_id := some "mock-task",
                elapsed_seconds := envX6.clock 1 - envX6.clock 0 },
              [Ev.submitCall])
    ∧ [Ev.put "pre_gpu" "t", Ev.submitCall].countP isPutEv = 1
    ∧ [Ev.submitCall].countP isPutEv = 0 :=
  ⟨rfl, rfl, rfl, rfl⟩

/-- Claim C6 (amended): both modes implement the same submit → poll →
timeout/cancel → result-retrieval algorithm, and for every invocation
that supplies no progress callback and no checkpoint sink the two modes
are the same function of the environment: identical result envelopes
(status, payload, error, handle id, elapsed-time semantics) and identical
event sequences, under the same submission outcome, handle behaviour and
clock.  The thread-blocking mode, however, does not implement the
pre-submission checkpoint step or the progress-callback step — it accepts
no such parameters — so the claimed equivalence of those two steps fails
(see the counterexample); only the suspension mechanism differs on the
shared steps. -/
theorem modes_equivalent_amended
    (env : Env) (tn : String) (timeout : Int) (pollI ckI : ℚ) (fuel : Nat)
    (hcb : env.onCheckpoint = none) (hcp : env.checkpointer = none) :
    executeAsync env tn timeout pollI ckI fuel
      = executeSync env timeout pollI fuel :=
  async_eq_sync hcb hcp

/-- Claim C6 witness: on a concrete callback-free environment the two
modes agree. -/
theorem modes_equivalent_amended_witness :
    executeAsync envW6 "t" 50 1 30 3 = executeSync envW6 50 1 3 :=
  modes_equivalent_amended envW6 "t" 50 1 30 3 rfl rfl

/-- Claim C7: in offline/deterministic (mock) mode, and likewise whenever
submission returns a value that is not a job handle, both modes return a
`SUCCESS` result wrapping that value immediately: no polling loop is
entered, no suspension (sleep) occurs, and under a test clock whose
readings coincide `elapsed_seconds` is exactly 0. -/
theorem immediate_success_no_polling
    (env : Env) (tn : String) (timeout : Int) (pollI ckI : ℚ) (fuel : Nat)
    (v : PyVal) (hclk : env.clock 1 = env.clock 0) :
    (env.mockMode = true →
      executeAsync env tn timeout pollI ckI fuel
        = some ({ status := .SUCCESS, result := env.mockResult,
                  error := none, task_id := some "mock-task",
                  elapsed_seconds := 0 },
                preLog env tn ++ [Ev.submitCall])
      ∧ executeSync env timeout pollI fuel
        = some ({ status := .SUCCESS, result := env.mockResult,
                  error := none, task_id := some "mock-task",
                  elapsed_seconds := 0 },
                [Ev.submitCall])
      ∧ (preLog env tn ++ [Ev.submitCall]).countP isSleepEv = 0)
    ∧ (env.mockMode = false → env.submission = .direct v →
      executeAsync env tn timeout pollI ckI fuel
        = some ({ status := .SUCCESS, result := v,
                  error := none, task_id := some "direct-result",
                  elapsed_seconds := 0 },
                preLog env tn ++ [Ev.submitCall])
      ∧ executeSync env timeout pollI fuel
        = some ({ status := .SUCCESS, result := v,
                  error := none, task_id := some "direct-result",
                  elapsed_seconds := 0 },
                [Ev.submitCall])
      ∧ (preLog env tn ++ [Ev.submitCall]).countP isSleepEv = 0) := by
  have h0 : env.clock 1 - env.clock 0 = 0 := by rw [hclk, sub_self]
  constructor
  · intro hm
    refine ⟨?_, ?_, ?_⟩
    · unfold executeAsync
      rw [hm, h0]
      simp
    · unfold executeSync
      rw [hm, h0]
      simp
    · simp [List.countP_append, countP_sleep_preLog, isSleepEv]
  · intro hm hsub
    refine ⟨?_, ?_, ?_⟩
    · unfold executeAsync
      rw [hm, hsub, h0]
      simp
    · unfold executeSync
      rw [hm, hsub, h0]
      simp
    · simp [List.countP_append, countP_sleep_preLog, isSleepEv]

/-- Claim C7 witness: both branches exercised under a constant test
clock — mock mode wrapping 42, and a direct (non-handle) submission
wrapping 7; in all four results `elapsed_seconds` is 0 and no sleep
occurs. -/
theorem immediate_success_no_polling_witness :
    (executeAsync envW7m "t" 50 1 30 3
        = some ({ status := .SUCCESS, result := envW7m.mockResult,
                  error := none, task_id := some "mock-task",
                  elapsed_seconds := 0 },
                preLog envW7m "t" ++ [Ev.submitCall])
      ∧ executeSync envW7m 50 1 3
        = some ({ status := .SUCCESS, result := envW7m.mockResult,
                  error := none, task_id := some "mock-task",
                  elapsed_seconds := 0 },
                [Ev.submitCall])
      ∧ (preLog envW7m "t" ++ [Ev.submitCall]).countP isSleepEv = 0)
    ∧ (executeAsync envW7d "t" 50 1 30 3
        = some ({ status := .SUCCESS, result := .vInt 7,
                  error := none, task_id := some "direct-result",
                  elapsed_seconds := 0 },
                preLog envW7d "t" ++ [Ev.submitCall])
      ∧ executeSync envW7d 50 1 3
        = some ({ status := .SUCCESS, result := .vInt 7,
                  error := none, task_id := some "direct-result",
                  elapsed_seconds := 0 },
                [Ev.submitCall])
      ∧ (preLog envW7d "t" ++ [Ev.submitCall]).countP isSleepEv = 0) :=
  ⟨(immediate_success_no_polling envW7m "t" 50 1 30 3 .vNone rfl).1 rfl,
   (immediate_success_no_polling envW7d "t" 50 1 30 3 (.vInt 7) rfl).2
     rfl rfl⟩

/-- Claim C8: for every lock name, the scoped helper (`locked`) either
acquires the lock and runs the critical section, or raises a
lock-acquisition error without entering the critical section — the
critical section is never entered without the lock held; and whenever the
critical section is entered, release is invoked on every exit path,
normal return and exception alike. -/
theorem locked_scoped_guarantees
    (env : LockEnv) (ri : ℚ) (mr : Nat) (name : String) (α : Type)
    (body : Except String α) :
    (∀ tok log, acquire env true ri mr = (some tok, log) →
      lockedCM env ri mr name body
        = ((match body with
            | .ok a => LockedOutcome.ok a
            | .error e => LockedOutcome.bodyError e),
           log ++ [LockEv.enter, LockEv.release]))
    ∧ (∀ log, acquire env true ri mr = (none, log) →
      lockedCM env ri mr name body
        = (.acqError ("Failed to acquire lock: " ++ name), log)
      ∧ LockEv.enter ∉ log)
    ∧ (∀ out log, lockedCM env ri mr name body = (out, log) →
      LockEv.enter ∈ log → LockEv.release ∈ log) := by
  refine ⟨?_, ?_, ?_⟩
  · intro tok log hl
    unfold lockedCM
    rw [hl]
    cases body <;> rfl
  · intro log hl
    refine ⟨by unfold lockedCM; rw [hl], fun hmem => ?_⟩
    have := acquire_log_events env true ri mr LockEv.enter
      (by rw [hl]; exact hmem)
    exact this.1 rfl
  · intro out log hl hmem
    unfold lockedCM at hl
    rcases hacq : acquire env true ri mr with ⟨otok, alog⟩
    rw [hacq] at hl
    cases otok with
    | none =>
      simp only [Prod.mk.injEq] at hl
      obtain ⟨rfl, rfl⟩ := hl
      have := acquire_log_events env true ri mr LockEv.enter
        (by rw [hacq]; exact hmem)
      exact absurd rfl this.1
    | some tok =>
      cases body with
      | ok a =>
        simp only [Prod.mk.injEq] at hl
        obtain ⟨rfl, rfl⟩ := hl
        exact List.mem_append.mpr (Or.inr (by simp))
      | error e =>
        simp only [Prod.mk.injEq] at hl
        obtain ⟨rfl, rfl⟩ := hl
        exact List.mem_append.mpr (Or.inr (by simp))

/-- Claim C8 witness: on a store whose second attempt succeeds, a raising
critical section still sees the release; on a store that never grants the
lock, the helper raises the lock-acquisition error and the critical
section is never entered. -/
theorem locked_scoped_guarantees_witness :
    lockedCM lenvW8 1 3 "job-42" (Except.error "boom" : Except String Nat)
      = (.bodyError "boom",
         [LockEv.attempt 0, LockEv.sleep 1, LockEv.attempt 1]
           ++ [LockEv.enter, LockEv.release])
    ∧ (lockedCM lenvW9 1 2 "job-42" (Except.ok 5 : Except String Nat)
        = (.acqError ("Failed to acquire lock: " ++ "job-42"),
           [LockEv.attempt 0, LockEv.sleep 1, LockEv.attempt 1,
            LockEv.sleep 1])
      ∧ LockEv.enter ∉ [LockEv.attempt 0, LockEv.sleep 1,
          LockEv.attempt 1, LockEv.sleep 1]) :=
  ⟨(locked_scoped_guarantees lenvW8 1 3 "job-42" Nat
      (Except.error "boom")).1 1
      [LockEv.attempt 0, LockEv.sleep 1, LockEv.attempt 1] rfl,
   (locked_scoped_guarantees lenvW9 1 2 "job-42" Nat (Except.ok 5)).2.1
      [LockEv.attempt 0, LockEv.sleep 1, LockEv.attempt 1,
       LockEv.sleep 1] rfl⟩

/-- Claim C9: `acquire` with `blocking=False` makes a single attempt and
returns `None` immediately on contention (else the token); with
`blocking=True` it makes up to `max_retries` attempts with a
`retry_interval` sleep after each failed attempt, returns the token at
the first attempt that succeeds, and returns `None` when the first
`max_retries` attempts all fail. -/
theorem acquire_retry_semantics (env : LockEnv) (ri : ℚ) (mr : Nat) :
    (acquire env false ri mr
        = ((if env.tryAcquire 0 then some 0 else none), [LockEv.attempt 0])
      ∧ [LockEv.attempt 0].countP isAttemptEv = 1)
    ∧ (∀ i, i < mr → env.tryAcquire i = true →
      (∀ j, j < i → env.tryAcquire j = false) →
      acquire env true ri mr
        = (some i, retryLog ri 0 i ++ [LockEv.attempt i]))
    ∧ ((∀ i, i < mr → env.tryAcquire i = false) →
      acquire env true ri mr = (none, retryLog ri 0 mr)
      ∧ (retryLog ri 0 mr).countP isAttemptEv = mr) := by
  refine ⟨⟨?_, by simp [isAttemptEv]⟩, ?_, ?_⟩
  · unfold acquire
    cases h0 : env.tryAcquire 0 <;> simp [h0]
  · intro i hlt hok hf
    unfold acquire
    rw [if_pos rfl]
    have := @acquireGo_success env ri i mr 0 []
      hlt (by simpa using hok) (fun j hj => by simpa using hf j hj)
    simpa using this
  · intro hf
    unfold acquire
    rw [if_pos rfl]
    have hex := @acquireGo_exhaust env ri mr 0 []
      (fun j hj => by simpa using hf j hj)
    exact ⟨by simpa using hex, retryLog_attempt_count ri mr 0⟩

/-- Claim C9 witness: instantiated on a store whose second attempt
succeeds (blocking acquisition returns token 1 after one failed attempt
and one sleep) and on a store that always fails (two attempts, then
`None`). -/
theorem acquire_retry_semantics_witness :
    (acquire lenvW9 false 1 2
        = ((if lenvW9.tryAcquire 0 then some 0 else none),
           [LockEv.attempt 0])
      ∧ [LockEv.attempt 0].countP isAttemptEv = 1)
    ∧ acquire lenvW8 true 1 3
        = (some 1, retryLog 1 0 1 ++ [LockEv.attempt 1])
    ∧ (acquire lenvW9 true 1 2 = (none, retryLog 1 0 2)
      ∧ (retryLog 1 0 2).countP isAttemptEv = 2) :=
  ⟨(acquire_retry_semantics lenvW9 1 2).1,
   (acquire_retry_semantics lenvW8 1 3).2.1 1 (by omega) rfl
     (fun j hj => by
       have hj0 : j = 0 := by omega
       rw [hj0]
       rfl),
   (acquire_retry_semantics lenvW9 1 2).2.2 (fun i hi => rfl)⟩

/-- Claim C10: in both execution modes each poll-loop iteration checks the
timeout before checking handle readiness; consequently an invocation whose
handle is ready at the first poll past the deadline (`h.ready` returns
true there, and would have been observed had readiness been checked
first) still returns `TIMEOUT` and issues one forceful cancellation
request, rather than returning the available result — the readiness
hypotheses `havail`/`havailS` are deliberately never consumed by the
timeout path. -/
theorem timeout_checked_before_ready
    (env : Env) (h : HandleB) (tn : String) (timeout : Int) (pollI ckI : ℚ)
    (fuel : Nat)
    (hm : env.mockMode = false) (hs : env.submission = .handle h)
    (k ci : Nat) (lastCk : ℚ) (dlog : List Ev)
    (hr : Reaches env h timeout pollI ckI k ci lastCk dlog)
    (havail : h.ready k = .ok true)
    (hlate : (timeout : ℚ) < env.clock ci - env.clock 0)
    (hfuel : k < fuel)
    (ks : Nat)
    (hrun : ∀ i, i < ks → env.clock (i + 1) - env.clock 0 ≤ (timeout : ℚ)
      ∧ h.ready i = .ok false)
    (havailS : h.ready ks = .ok true)
    (hlateS : (timeout : ℚ) < env.clock (ks + 1) - env.clock 0)
    (hfuelS : ks < fuel) :
    (∃ r log, executeAsync env tn timeout pollI ckI fuel = some (r, log)
      ∧ r.status = .TIMEOUT ∧ r.status ≠ .SUCCESS ∧ r.status ≠ .FAILURE
      ∧ log.countP isCancelEv = 1)
    ∧ (∃ r log, executeSync env timeout pollI fuel = some (r, log)
      ∧ r.status = .TIMEOUT ∧ r.status ≠ .SUCCESS ∧ r.status ≠ .FAILURE
      ∧ log.countP isCancelEv = 1) := by
  constructor
  · have htb := tryBody_timeout hr hlate fuel
      (preLog env tn ++ [Ev.submitCall]) hfuel
    refine ⟨_, _, executeAsync_handle_ok hm hs htb, rfl, by simp,
      by simp, ?_⟩
    simp [List.countP_append, countP_cancel_preLog,
      countP_cancel_reaches hr, isCancelEv]
  · have hre := reaches_noCb env h timeout pollI ckI ks hrun
    have htb := tryBody_timeout hre hlateS fuel [Ev.submitCall] hfuelS
    rw [← syncBody_eq_tryBody env h timeout pollI ckI (env.clock 0)] at htb
    refine ⟨_, _, executeSync_handle_ok hm hs htb, rfl, by simp,
      by simp, ?_⟩
    simp [List.countP_append, countP_cancel_replicate, isCancelEv]

/-- Claim C10 witness: a handle that is ready at the very first poll, but
the clock has already jumped past the 50-second deadline when that poll
runs — the available success result is discarded in favour of `TIMEOUT`
with one cancellation, in both modes. -/
theorem timeout_checked_before_ready_witness :
    (∃ r log, executeAsync envW10 "t" 50 1 30 3 = some (r, log)
      ∧ r.status = .TIMEOUT ∧ r.status ≠ .SUCCESS ∧ r.status ≠ .FAILURE
      ∧ log.countP isCancelEv = 1)
    ∧ (∃ r log, executeSync envW10 50 1 3 = some (r, log)
      ∧ r.status = .TIMEOUT ∧ r.status ≠ .SUCCESS ∧ r.status ≠ .FAILURE
      ∧ log.countP isCancelEv = 1) :=
  timeout_checked_before_ready envW10 hW10 "t" 50 1 30 3 rfl rfl
    0 1 (envW10.clock 0) [] Reaches.zero rfl (by norm_num [envW10])
    (by omega)
    0 (fun i hi => absurd hi (Nat.not_lt_zero i)) rfl
    (by norm_num [envW10]) (by omega)

end SyndeGpu
